import Mathlib

/-!
Shallow embedding of `src/index.ts` (PostgresRecordProvider, the variant with
getUserData, deleteAll and the CREATE TABLE IF NOT EXISTS recovery, lines
155-365 of the concatenated source).  The adapter issues single SQL statements
against a Postgres pool; the pool and engine are external collaborators, so the
engine is modelled as explicit state passing over a database value: a database
is an association list from table names to tables, a table is a list of rows,
and a row holds the `_id` column (an opaque unique string; the uuid format
check of the column type is not modelled, identifiers are treated as opaque
strings as in the data model of the adapter) and the `json` jsonb column.
JavaScript record values are modelled by the inductive `JSVal`; the adapter
functions are translated statement by statement from the TypeScript source.
-/

namespace PostgresTools

/-- JavaScript values as far as the adapter inspects them: the primitive
values, arrays and plain objects (an object is a list of key-value pairs in
insertion order; JavaScript objects cannot hold a duplicate key). -/
inductive JSVal where
  | undefined : JSVal
  | null : JSVal
  | bool (b : Bool) : JSVal
  | num (n : Int) : JSVal
  | str (s : String) : JSVal
  | arr (elems : List JSVal) : JSVal
  | obj (fields : List (String × JSVal)) : JSVal

/-- JavaScript truthiness, as tested by `if (!record._id)` in `create`.
Falsy values: undefined, null, false, 0, the empty string.  (NaN is not
representable here since numbers are modelled as integers.) -/
def truthy : JSVal → Bool
  | .undefined => false
  | .null => false
  | .bool b => b
  | .num n => !(n == 0)
  | .str s => !(s == "")
  | .arr _ => true
  | .obj _ => true

/-- Property read on an object field list: first binding wins, absent keys
read as undefined. -/
def getFieldList : List (String × JSVal) → String → JSVal
  | [], _ => .undefined
  | (k0, v) :: fs, k => if k0 == k then v else getFieldList fs k

/-- Property read `v[k]`.  On non-objects it yields undefined (as property
access on JavaScript primitives does; access on null or undefined, which
throws in JavaScript, is never exercised by the adapter paths modelled
here). -/
def getField : JSVal → String → JSVal
  | .obj fs, k => getFieldList fs k
  | _, _ => .undefined

/-- Property write on an object field list: replace the first binding of the
key in place, or append a new binding. -/
def setFieldList : List (String × JSVal) → String → JSVal → List (String × JSVal)
  | [], k, x => [(k, x)]
  | (k0, v) :: fs, k, x => if k0 == k then (k0, x) :: fs else (k0, v) :: setFieldList fs k x

/-- Property write `v[k] = x`.  On non-objects the assignment is silently
ignored (non-strict JavaScript semantics for primitives). -/
def setField (v : JSVal) (k : String) (x : JSVal) : JSVal :=
  match v with
  | .obj fs => .obj (setFieldList fs k x)
  | other => other

/-- Lines 217-219 of the source: `if (!record._id) { record._id = uuid.v4(); }`.
The generated uuid is passed in as `freshId` (identifier generation is an
external collaborator yielding a universally unique string). -/
def assignIdIfFalsy (record : JSVal) (freshId : String) : JSVal :=
  if truthy (getField record "_id") then record else setField record "_id" (.str freshId)

mutual

/-- JSON.parse after JSON.stringify, i.e. the normalization a value undergoes
when persisted into a jsonb column: object fields bound to undefined are
dropped, undefined array elements become null, everything JSON-representable
is kept as is. -/
def stringifyParse : JSVal → JSVal
  | .undefined => .undefined
  | .null => .null
  | .bool b => .bool b
  | .num n => .num n
  | .str s => .str s
  | .arr xs => .arr (spElems xs)
  | .obj fs => .obj (spFields fs)

def spElems : List JSVal → List JSVal
  | [] => []
  | .undefined :: xs => .null :: spElems xs
  | x :: xs => stringifyParse x :: spElems xs

def spFields : List (String × JSVal) → List (String × JSVal)
  | [] => []
  | (_, .undefined) :: fs => spFields fs
  | (k, v) :: fs => (k, stringifyParse v) :: spFields fs

end

mutual

/-- JavaScript string coercion, as used by the + concatenation in the error
messages of the source. -/
def jsToString : JSVal → String
  | .undefined => "undefined"
  | .null => "null"
  | .bool true => "true"
  | .bool false => "false"
  | .num n => toString n
  | .str s => s
  | .arr xs => jsToStringElems xs
  | .obj _ => "[object Object]"

def jsToStringElems : List JSVal → String
  | [] => ""
  | [.undefined] => ""
  | [.null] => ""
  | [x] => jsToString x
  | .undefined :: xs => "," ++ jsToStringElems xs
  | .null :: xs => "," ++ jsToStringElems xs
  | x :: xs => jsToString x ++ "," ++ jsToStringElems xs

end

mutual

/-- JSON text of a jsonb value, as produced by the Postgres ->> operator on a
non-scalar field.  String escaping is not modelled (names in scope are
escape-free). -/
def renderJson : JSVal → String
  | .undefined => "null"
  | .null => "null"
  | .bool true => "true"
  | .bool false => "false"
  | .num n => toString n
  | .str s => "\"" ++ s ++ "\""
  | .arr xs => "[" ++ renderJsonElems xs ++ "]"
  | .obj fs => "\x7b" ++ renderJsonFields fs ++ "\x7d"

def renderJsonElems : List JSVal → String
  | [] => ""
  | [x] => renderJson x
  | x :: xs => renderJson x ++ "," ++ renderJsonElems xs

def renderJsonFields : List (String × JSVal) → String
  | [] => ""
  | [(k, v)] => "\"" ++ k ++ "\":" ++ renderJson v
  | (k, v) :: fs => "\"" ++ k ++ "\":" ++ renderJson v ++ "," ++ renderJsonFields fs

end

/-- The Postgres ->> text extraction on a field value: SQL NULL (modelled as
none) for an absent field or a JSON null, the text itself for scalars, and the
JSON serialization for arrays and objects. -/
def textOf : JSVal → Option String
  | .undefined => none
  | .null => none
  | .bool true => some "true"
  | .bool false => some "false"
  | .num n => some (toString n)
  | .str s => some s
  | .arr xs => some (renderJson (.arr xs))
  | .obj fs => some (renderJson (.obj fs))

/-- The jsonb containment test `field @> value` for a scalar right-hand side:
membership for arrays, equality for scalars.  An absent field (undefined)
matches nothing. -/
def jsContains (v : JSVal) (x : JSVal) : Bool :=
  match v, x with
  | .arr xs, .str s => xs.any (fun e => match e with | .str t => t == s | _ => false)
  | .str t, .str s => t == s
  | _, _ => false

/-- JSON.parse of the ->> text of an embedded id array, as done for the roles
and permissions fields in getUserData, followed by the string[] read: yields
the list of strings when the field is an array of strings, none otherwise
(an ill-formed document makes the JavaScript glue code fault). -/
def strElems : List JSVal → Option (List String)
  | [] => some []
  | .str s :: xs => (strElems xs).map (fun l => s :: l)
  | _ => none

def asStrList : JSVal → Option (List String)
  | .arr xs => strElems xs
  | _ => none

/-- The map + reduce(concat) flattening of the per-document id arrays in
getUserData (lines 268-269 and 273-274 of the source). -/
def flattenStrLists : List JSVal → Option (List String)
  | [] => some []
  | v :: vs =>
    match asStrList v, flattenStrLists vs with
    | some l, some ls => some (l ++ ls)
    | _, _ => none

/-- An engine error as observed by the adapter: only the code field is ever
inspected. -/
structure PgError where
  code : String
deriving DecidableEq

/-- Errors observable from the adapter: raised engine errors, plus the three
error kinds thrown by the adapter itself and a marker for JavaScript runtime
faults in the glue code. -/
inductive Err where
  | pg (e : PgError)
  | notFound (msg : String)
  | validation (msg : String)
  | argument (msg : String)
  | jsFault (msg : String)
deriving DecidableEq

/-- A row of a collection table: the `_id` column and the jsonb `json`
column.  (The serial ID column is internal to the engine and never read by the
adapter, so it is not modelled.) -/
structure Row where
  _id : String
  json : JSVal

abbrev Table := List Row

/-- The database: which tables exist, each with its rows.  Absence of an
entry models a never-created relation. -/
abbrev DB := List (String × Table)

def lookupTable : DB → String → Option Table
  | [], _ => none
  | (c0, t) :: db, c => if c0 == c then some t else lookupTable db c

def setTable : DB → String → Table → DB
  | [], c, t => [(c, t)]
  | (c0, t0) :: db, c, t => if c0 == c then (c0, t) :: db else (c0, t0) :: setTable db c t

def missingTableErr : PgError := { code := "42P01" }

def uniqueViolationErr : PgError := { code := "23505" }

def notNullViolationErr : PgError := { code := "23502" }

def invalidTextErr : PgError := { code := "22P02" }

/-- Line 359-361 of the source. -/
def isMissingTableError (ex : PgError) : Bool :=
  ex.code == "42P01"

/-- Line 363-365 of the source. -/
def isAlreadyExistsError (ex : PgError) : Bool :=
  ex.code == "23505"

/-- The shape of a pg QueryResult as far as the adapter reads it: rowCount and
rows.  The engine keeps rowCount equal to rows.length on selects and returns
no rows on writes. -/
structure QueryResult where
  rowCount : Nat
  rows : List Row

/-- Engine semantics of `SELECT json FROM c`. -/
def q_selectAll (db : DB) (c : String) : Except PgError QueryResult :=
  match lookupTable db c with
  | none => .error missingTableErr
  | some t => .ok { rowCount := t.length, rows := t }

/-- Engine semantics of `SELECT json FROM c WHERE _id = $1`. -/
def q_selectById (db : DB) (c id : String) : Except PgError QueryResult :=
  match lookupTable db c with
  | none => .error missingTableErr
  | some t =>
    let rs := t.filter (fun r => r._id == id)
    .ok { rowCount := rs.length, rows := rs }

/-- Engine semantics of `INSERT INTO c (json, _id) VALUES ($1, $2)`.  The $2
parameter is the JavaScript value record._id: a null or undefined value hits
the NOT NULL constraint, a non-string value fails text conversion, a string
value hits the named uniqueness constraint when a row with that identifier
already exists. -/
def q_insert (db : DB) (c : String) (doc : JSVal) (idParam : JSVal) :
    Except PgError (QueryResult × DB) :=
  match lookupTable db c with
  | none => .error missingTableErr
  | some t =>
    match idParam with
    | .str id =>
      if t.any (fun r => r._id == id) then .error uniqueViolationErr
      else .ok ({ rowCount := 1, rows := [] }, setTable db c (t ++ [{ _id := id, json := doc }]))
    | .null => .error notNullViolationErr
    | .undefined => .error notNullViolationErr
    | _ => .error invalidTextErr

/-- Engine semantics of the upsert statement
`INSERT INTO c (json, _id) VALUES ($1, $2) ON CONFLICT ON CONSTRAINT c__id_key
DO UPDATE SET json = $1`: replace the document of the conflicting row, insert
otherwise. -/
def q_upsert (db : DB) (c : String) (doc : JSVal) (idParam : JSVal) :
    Except PgError (QueryResult × DB) :=
  match lookupTable db c with
  | none => .error missingTableErr
  | some t =>
    match idParam with
    | .str id =>
      if t.any (fun r => r._id == id) then
        .ok ({ rowCount := 1, rows := [] },
          setTable db c (t.map (fun r => if r._id == id then { r with json := doc } else r)))
      else .ok ({ rowCount := 1, rows := [] }, setTable db c (t ++ [{ _id := id, json := doc }]))
    | .null => .error notNullViolationErr
    | .undefined => .error notNullViolationErr
    | _ => .error invalidTextErr

/-- Engine semantics of `UPDATE c SET json = $1 WHERE _id = $2`.  The $2
parameter is record._id; a null or undefined parameter compares to nothing and
affects zero rows. -/
def q_update (db : DB) (c : String) (doc : JSVal) (idParam : JSVal) :
    Except PgError (QueryResult × DB) :=
  match lookupTable db c with
  | none => .error missingTableErr
  | some t =>
    match idParam with
    | .str id =>
      .ok ({ rowCount := t.countP (fun r => r._id == id), rows := [] },
        setTable db c (t.map (fun r => if r._id == id then { r with json := doc } else r)))
    | .null => .ok ({ rowCount := 0, rows := [] }, db)
    | .undefined => .ok ({ rowCount := 0, rows := [] }, db)
    | _ => .error invalidTextErr

/-- Engine semantics of `DELETE FROM c WHERE _id = $1`: a missing relation is
an engine error (42P01); otherwise the matching rows are removed and counted,
with no error whether or not any row matched. -/
def q_delete (db : DB) (c id : String) : Except PgError (QueryResult × DB) :=
  match lookupTable db c with
  | none => .error missingTableErr
  | some t =>
    .ok ({ rowCount := t.countP (fun r => r._id == id), rows := [] },
      setTable db c (t.filter (fun r => !(r._id == id))))

/-- Lines 351-357 of the source: the catch handler that turns a missing-table
error into an empty result set and rethrows anything else. -/
def emptyOnMissingTable (ex : PgError) : Except PgError QueryResult :=
  if !isMissingTableError ex then .error ex
  else .ok { rowCount := 0, rows := [] }

/-- The promise catch combinator on a read query. -/
def catchQuery (r : Except PgError QueryResult)
    (handler : PgError → Except PgError QueryResult) : Except PgError QueryResult :=
  match r with
  | .ok v => .ok v
  | .error e => handler e

/-- The promise catch combinator on a write query; a failed statement leaves
the database unchanged, so the synthesized empty result is paired with the
incoming state. -/
def catchWriteEmpty (db : DB) (r : Except PgError (QueryResult × DB)) :
    Except PgError (QueryResult × DB) :=
  match r with
  | .ok v => .ok v
  | .error e =>
    match emptyOnMissingTable e with
    | .ok q => .ok (q, db)
    | .error e0 => .error e0

/-- Engine semantics of `CREATE TABLE IF NOT EXISTS c (...)` in a sequential
run: a no-op when the relation exists, creation of an empty relation
otherwise.  (The concurrent race in which this statement itself fails with
code 23505 cannot arise in the sequential model; that path is covered by
`createOnMissingTableProto` below.) -/
def createTableIfNotExistsDb (db : DB) (c : String) : DB :=
  match lookupTable db c with
  | some _ => db
  | none => (c, []) :: db

/-- Lines 319-337 of the source, sequential instantiation: rethrow a trigger
error that is not a missing-table error, otherwise create the table (which
cannot fail sequentially) and rerun the query against the new state. -/
def createOnMissingTable (db : DB) (ex : PgError) (c : String)
    (query : DB → Except PgError (QueryResult × DB)) : Except PgError (QueryResult × DB) :=
  if isMissingTableError ex then query (createTableIfNotExistsDb db c)
  else .error ex

/-- Lines 319-337 of the source with the engine responses abstracted, so that
the concurrent outcomes are expressible: `createResult` is the outcome of the
CREATE TABLE IF NOT EXISTS statement and `queryResult` the outcome of
re-issuing the original statement.  A creation failure with code 23505 is
swallowed (the console.warn log is not modelled); any other creation failure
propagates; after creation the original statement result is returned as is. -/
def createOnMissingTableProto {α : Type} (ex : PgError) (createResult : Except PgError Unit)
    (queryResult : Except PgError α) : Except PgError α :=
  if isMissingTableError ex then
    match createResult with
    | .ok _ => queryResult
    | .error e => if e.code == "23505" then queryResult else .error e
  else .error ex

/-- The `query().catch(ex => this.createOnMissingTable(ex, collectionName, query))`
pattern shared by create and upsert. -/
def runWriteWithProvision (db : DB) (c : String)
    (query : DB → Except PgError (QueryResult × DB)) : Except PgError (QueryResult × DB) :=
  match query db with
  | .ok r => .ok r
  | .error ex => createOnMissingTable db ex c query

/-- Lines 187-192 of the source: getAll. -/
def getAll (db : DB) (c : String) : Except Err (List JSVal) :=
  match catchQuery (q_selectAll db c) emptyOnMissingTable with
  | .error e => .error (.pg e)
  | .ok result => .ok (result.rows.map (fun r => r.json))

/-- Lines 200-208 of the source: get.  The rows-empty fallback branch models
the JavaScript fault of reading result.rows[0].json on an empty rows array; it
is unreachable because every engine result keeps rowCount equal to
rows.length on selects. -/
def get (db : DB) (c id : String) : Except Err JSVal :=
  match catchQuery (q_selectById db c id) emptyOnMissingTable with
  | .error e => .error (.pg e)
  | .ok result =>
    if result.rowCount == 0 then
      .error (.notFound ("The record " ++ id ++ " in " ++ c ++ " does not exist."))
    else
      match result.rows with
      | [] => .error (.jsFault "TypeError")
      | r :: _ => .ok r.json

/-- The catch block of create (lines 224-229 of the source): a uniqueness
violation becomes a ValidationError naming record._id and the collection,
anything else is rethrown. -/
def createCatch (c : String) (recordId : JSVal) (ex : PgError) : Err :=
  if isAlreadyExistsError ex then
    .validation ("The record " ++ jsToString recordId ++ " in " ++ c ++ " already exists.")
  else .pg ex

/-- Lines 216-231 of the source: create.  `freshId` stands for the uuid.v4()
value that would be generated on this call. -/
def create (db : DB) (c : String) (record : JSVal) (freshId : String) :
    Except Err (DB × JSVal) :=
  let record2 := assignIdIfFalsy record freshId
  match runWriteWithProvision db c
      (fun d => q_insert d c (stringifyParse record2) (getField record2 "_id")) with
  | .error ex => .error (createCatch c (getField record2 "_id") ex)
  | .ok (_, db2) => .ok (db2, record2)

/-- Lines 241-257 of the source: update. -/
def update (db : DB) (c id : String) (record : JSVal) (upsert : Bool) :
    Except Err (DB × JSVal) :=
  let record2 := setField record "_id" (.str id)
  if upsert then
    match runWriteWithProvision db c
        (fun d => q_upsert d c (stringifyParse record2) (getField record2 "_id")) with
    | .error ex => .error (.pg ex)
    | .ok (_, db2) => .ok (db2, record2)
  else
    match catchWriteEmpty db (q_update db c (stringifyParse record2) (getField record2 "_id")) with
    | .error e => .error (.pg e)
    | .ok (result, db2) =>
      if result.rowCount == 0 then
        .error (.notFound ("The record " ++ id ++ " in " ++ c ++ " does not exist."))
      else .ok (db2, record2)

/-- Lines 293-295 of the source: delete.  The single DELETE statement has no
catch handler and its result is discarded without a row-count check. -/
def delete (db : DB) (c id : String) : Except Err DB :=
  match q_delete db c id with
  | .error e => .error (.pg e)
  | .ok (_, db2) => .ok db2

/-- The WHERE clause of the groups query of getUserData:
`json->'members' @> '"userId"'`. -/
def groupMatches (userId : String) (r : Row) : Bool :=
  jsContains (getField r.json "members") (.str userId)

/-- The WHERE clause of the roles query of getUserData:
`json->'users' @> '"userId"' OR _id = ANY (rolesIds)`. -/
def roleMatches (userId : String) (rolesIds : List String) (r : Row) : Bool :=
  jsContains (getField r.json "users") (.str userId) || rolesIds.contains r._id

/-- The result shape of getUserData: group (id, name) pairs, role names and
permission names, each an Option String since ->> yields SQL NULL on absent
fields. -/
structure UserData where
  groups : List (Option String × Option String)
  roles : List (Option String)
  permissions : List (Option String)

/-- Lines 264-286 of the source: getUserData.  Three dependent queries over
the groups, roles and permissions tables with no missing-table recovery; the
JavaScript flattening of the embedded id arrays faults (jsFault) when a
matching document lacks a string array in its roles or permissions field. -/
def getUserData (db : DB) (userId : String) : Except Err UserData :=
  match lookupTable db "groups" with
  | none => .error (.pg missingTableErr)
  | some gt =>
    let groupRows := gt.filter (groupMatches userId)
    match flattenStrLists (groupRows.map (fun r => getField r.json "roles")) with
    | none => .error (.jsFault "JSON.parse")
    | some rolesIds =>
      match lookupTable db "roles" with
      | none => .error (.pg missingTableErr)
      | some rt =>
        let roleRows := rt.filter (roleMatches userId rolesIds)
        match flattenStrLists (roleRows.map (fun r => getField r.json "permissions")) with
        | none => .error (.jsFault "JSON.parse")
        | some permissionIds =>
          match lookupTable db "permissions" with
          | none => .error (.pg missingTableErr)
          | some pt =>
            .ok { groups := groupRows.map (fun r =>
                    (textOf (getField r.json "_id"), textOf (getField r.json "name"))),
                  roles := roleRows.map (fun r => textOf (getField r.json "name")),
                  permissions := (pt.filter (fun r => permissionIds.contains r._id)).map
                    (fun r => textOf (getField r.json "name")) }

/-- The provider object after construction: the pg Pool is created with the
connection string but performs no connection work until a query runs, so
construction is modelled as recording the configuration. -/
structure PostgresRecordProvider where
  connectionString : String
deriving DecidableEq

def isString : JSVal → Bool
  | .str _ => true
  | _ => false

/-- Lines 170-180 of the source: the constructor.  Null and undefined are
rejected first, then any non-string value; every string value (including the
empty string, which no check rejects) reaches the pool creation. -/
def construct (connectionString : JSVal) : Except Err PostgresRecordProvider :=
  match connectionString with
  | .null => .error (.argument "Must provide a connectionString")
  | .undefined => .error (.argument "Must provide a connectionString")
  | .str s => .ok { connectionString := s }
  | v => .error (.argument ("The provided connectionString is invalid: " ++ jsToString v))

/-- Whether the database holds a row with the given identifier in the given
collection (false as well when the table was never created). -/
def hasRow (db : DB) (c id : String) : Bool :=
  match lookupTable db c with
  | none => false
  | some t => t.any (fun r => r._id == id)

end PostgresTools

namespace PostgresTools

theorem lookupTable_setTable_self (db : DB) (c : String) (t : Table) :
    lookupTable (setTable db c t) c = some t := by
  induction db with
  | nil => simp [setTable, lookupTable]
  | cons p db ih =>
    obtain ⟨c0, t0⟩ := p
    by_cases h : (c0 == c) = true
    · simp [setTable, lookupTable, h]
    · simp [setTable, lookupTable, h, ih]

theorem getFieldList_setFieldList_self (fs : List (String × JSVal)) (k : String) (x : JSVal) :
    getFieldList (setFieldList fs k x) k = x := by
  induction fs with
  | nil => simp [setFieldList, getFieldList]
  | cons p fs ih =>
    obtain ⟨k0, v⟩ := p
    by_cases h : (k0 == k) = true
    · simp [setFieldList, getFieldList, h]
    · simp [setFieldList, getFieldList, h, ih]

theorem getField_setField_self (fs : List (String × JSVal)) (k : String) (x : JSVal) :
    getField (setField (.obj fs) k x) k = x := by
  simp [setField, getField, getFieldList_setFieldList_self]

theorem getFieldList_setFieldList_ne (fs : List (String × JSVal)) (k k2 : String) (x : JSVal)
    (h : ¬ k2 = k) : getFieldList (setFieldList fs k x) k2 = getFieldList fs k2 := by
  have hkk2 : (k == k2) = false := beq_eq_false_iff_ne.mpr (fun hbad => h hbad.symm)
  induction fs with
  | nil => simp [setFieldList, getFieldList, hkk2]
  | cons p fs ih =>
    obtain ⟨k0, v⟩ := p
    by_cases hk : (k0 == k) = true
    · have hk0 : k0 = k := by simpa using hk
      subst hk0
      simp [setFieldList, getFieldList, hkk2]
    · simp [setFieldList, hk, getFieldList, ih]

theorem getField_setField_ne (v : JSVal) (k k2 : String) (x : JSVal)
    (h : ¬ k2 = k) : getField (setField v k x) k2 = getField v k2 := by
  cases v <;> simp [setField, getField]
  exact getFieldList_setFieldList_ne _ _ _ _ h

end PostgresTools

namespace PostgresTools

/-- Claim C1 (amended): delete performs no row-count check, so on an existing
table it completes without error whether or not a record with the identifier
exists (the matching rows, possibly none, are removed); but when the backing
table of the collection has never been created, the DELETE statement fails
with the missing-table engine code and delete, which installs no catch
handler, propagates that raw error. -/
theorem C1_delete_theorem (db : DB) (c id : String) (t : Table) :
    (lookupTable db c = some t →
      delete db c id = .ok (setTable db c (t.filter (fun r => !(r._id == id)))))
    ∧ (lookupTable db c = none → delete db c id = .error (.pg missingTableErr)) := by
  constructor
  · intro h
    simp [delete, q_delete, h]
  · intro h
    simp [delete, q_delete, h]

/-- Claim C1, witness: deleting an absent identifier from an existing table
succeeds and leaves the table unchanged. -/
theorem C1_delete_witness :
    delete [("c", [{ _id := "y", json := JSVal.null }])] "c" "x" =
      .ok (setTable [("c", [{ _id := "y", json := JSVal.null }])] "c"
        ([{ _id := "y", json := JSVal.null }].filter (fun r => !(r._id == "x")))) :=
  (C1_delete_theorem [("c", [{ _id := "y", json := JSVal.null }])] "c" "x"
    [{ _id := "y", json := JSVal.null }]).1 rfl

/-- Claim C1, counterexample: deleting from a collection whose table has never
been created does raise an error (the raw missing-table engine error, code
42P01), contradicting the claim that delete completes without error in that
case. -/
theorem C1_delete_cex :
    delete ([] : DB) "c" "x" = .error (.pg { code := "42P01" }) := rfl

/-- Claim C3 (amended): constructing the provider with a null, undefined, or
non-string connection descriptor raises an invalid-argument error before any
connection attempt; every string descriptor, including the empty string
(which no check rejects), succeeds with no connection I/O beyond pool object
creation. -/
theorem C3_construct_theorem :
    construct .null = .error (.argument "Must provide a connectionString")
    ∧ construct .undefined = .error (.argument "Must provide a connectionString")
    ∧ (∀ v : JSVal, isString v = false → ¬ v = .null → ¬ v = .undefined →
        construct v = .error (.argument ("The provided connectionString is invalid: "
          ++ jsToString v)))
    ∧ (∀ s : String, construct (.str s) = .ok { connectionString := s }) := by
  refine ⟨rfl, rfl, ?_, fun s => rfl⟩
  intro v hv hn hu
  cases v with
  | null => exact absurd rfl hn
  | undefined => exact absurd rfl hu
  | str s => simp [isString] at hv
  | bool b => rfl
  | num n => rfl
  | arr xs => rfl
  | obj fs => rfl

/-- Claim C3, witness: a numeric descriptor is rejected with the
invalid-argument message, a string descriptor is accepted. -/
theorem C3_construct_witness :
    construct (.num 0) = .error (.argument ("The provided connectionString is invalid: "
      ++ jsToString (.num 0)))
    ∧ construct (.str "postgres:x") = .ok { connectionString := "postgres:x" } :=
  ⟨C3_construct_theorem.2.2.1 (.num 0) rfl (fun h => JSVal.noConfusion h)
      (fun h => JSVal.noConfusion h),
    C3_construct_theorem.2.2.2 "postgres:x"⟩

/-- Claim C3, counterexample: the empty string descriptor is not rejected;
construction succeeds and records the empty connection string, contradicting
the claim that an empty string raises an invalid-argument error. -/
theorem C3_construct_cex :
    construct (.str "") = .ok { connectionString := "" } := rfl

/-- Claim C6: getAll on a collection whose backing table does not exist
returns an empty sequence rather than an error, and the catch handler
rethrows unchanged every failure whose code is not the missing-table code. -/
theorem C6_getAll_theorem (db : DB) (c : String) (e : PgError) :
    (lookupTable db c = none → getAll db c = .ok [])
    ∧ (isMissingTableError e = false → emptyOnMissingTable e = .error e) := by
  constructor
  · intro h
    simp [getAll, q_selectAll, h, catchQuery, emptyOnMissingTable, isMissingTableError,
      missingTableErr]
  · intro h
    simp [emptyOnMissingTable, h]

/-- Claim C6, witness: a never-created collection reads as empty, and a
connectivity failure code is rethrown unchanged. -/
theorem C6_getAll_witness :
    getAll ([] : DB) "c" = .ok []
    ∧ emptyOnMissingTable { code := "08006" } = .error { code := "08006" } :=
  ⟨(C6_getAll_theorem [] "c" { code := "08006" }).1 rfl,
    (C6_getAll_theorem [] "c" { code := "08006" }).2 rfl⟩

/-- Claim C9: create treats any falsy identifier value as absent.  When
record._id is falsy the record is given the freshly generated uuid as its
identifier (and the enumerated values undefined, null, the empty string, 0
and false are exactly falsy); when record._id is truthy the record is kept
unchanged. -/
theorem C9_falsy_id_theorem (fs : List (String × JSVal)) (f : String) :
    (truthy (getField (.obj fs) "_id") = false →
      assignIdIfFalsy (.obj fs) f = setField (.obj fs) "_id" (.str f)
      ∧ getField (assignIdIfFalsy (.obj fs) f) "_id" = .str f)
    ∧ (truthy (getField (.obj fs) "_id") = true → assignIdIfFalsy (.obj fs) f = .obj fs)
    ∧ truthy .undefined = false ∧ truthy .null = false ∧ truthy (.str "") = false
    ∧ truthy (.num 0) = false ∧ truthy (.bool false) = false := by
  refine ⟨?_, ?_, rfl, rfl, by simp [truthy], by simp [truthy], rfl⟩
  · intro h
    refine ⟨by simp [assignIdIfFalsy, h], ?_⟩
    simp [assignIdIfFalsy, h, getField_setField_self]
  · intro h
    simp [assignIdIfFalsy, h]

/-- Claim C9, witness: a record whose identifier field is the empty string is
given the generated uuid. -/
theorem C9_falsy_id_witness :
    assignIdIfFalsy (.obj [("_id", .str ""), ("a", .num 1)]) "u1" =
      setField (.obj [("_id", .str ""), ("a", .num 1)]) "_id" (.str "u1")
    ∧ getField (assignIdIfFalsy (.obj [("_id", .str ""), ("a", .num 1)]) "u1") "_id" =
      .str "u1" :=
  (C9_falsy_id_theorem [("_id", .str ""), ("a", .num 1)] "u1").1 (by decide)

end PostgresTools

namespace PostgresTools

/-- Claim C4: when a write statement fails with the missing-table code, the
recovery step issues the idempotent CREATE TABLE IF NOT EXISTS (a no-op on an
existing table); a creation failure with the uniqueness-violation code is
swallowed and a creation failure with any other code propagates; afterwards
the original statement is re-issued exactly once and its outcome is returned
as is (in particular a second missing-table failure of the re-issued
statement is returned, not recovered again).  Stated over the abstracted
protocol for concurrent creation outcomes and over the sequential model for
the end-to-end create and upsert paths. -/
theorem C4_provisioning_theorem :
    (∀ (ex e : PgError) (qr : Except PgError Nat), isMissingTableError ex = true →
        e.code = "23505" → createOnMissingTableProto ex (.error e) qr = qr)
    ∧ (∀ (ex e : PgError) (qr : Except PgError Nat), isMissingTableError ex = true →
        ¬ e.code = "23505" → createOnMissingTableProto ex (.error e) qr = .error e)
    ∧ (∀ (ex : PgError) (qr : Except PgError Nat), isMissingTableError ex = true →
        createOnMissingTableProto ex (.ok ()) qr = qr)
    ∧ (∀ ex : PgError, isMissingTableError ex = true →
        createOnMissingTableProto ex (.ok ())
          ((.error missingTableErr : Except PgError Nat)) = .error missingTableErr)
    ∧ (∀ (db : DB) (c : String) (t : Table), lookupTable db c = some t →
        createTableIfNotExistsDb db c = db)
    ∧ (∀ (db : DB) (c : String) (fs : List (String × JSVal)) (f : String),
        lookupTable db c = none → getField (.obj fs) "_id" = .undefined →
        create db c (.obj fs) f =
          .ok ((c, [(⟨f, stringifyParse (assignIdIfFalsy (.obj fs) f)⟩ : Row)]) :: db,
            assignIdIfFalsy (.obj fs) f))
    ∧ (∀ (db : DB) (c id : String) (fs : List (String × JSVal)),
        lookupTable db c = none →
        update db c id (.obj fs) true =
          .ok ((c, [(⟨id, stringifyParse (setField (.obj fs) "_id" (.str id))⟩ : Row)]) :: db,
            setField (.obj fs) "_id" (.str id))) := by
  refine ⟨?_, ?_, ?_, ?_, ?_, ?_, ?_⟩
  · intro ex e qr hex he
    simp [createOnMissingTableProto, hex, he]
  · intro ex e qr hex he
    simp [createOnMissingTableProto, hex, beq_eq_false_iff_ne.mpr he]
  · intro ex qr hex
    simp [createOnMissingTableProto, hex]
  · intro ex hex
    simp [createOnMissingTableProto, hex]
  · intro db c t h
    simp [createTableIfNotExistsDb, h]
  · intro db c fs f h hid
    have hgf : getField (assignIdIfFalsy (.obj fs) f) "_id" = .str f := by
      simp only [assignIdIfFalsy, hid, truthy, if_false, Bool.false_eq_true]
      exact getField_setField_self fs "_id" (.str f)
    simp [create, runWriteWithProvision, createOnMissingTable, createTableIfNotExistsDb,
      q_insert, h, hgf, isMissingTableError, missingTableErr, lookupTable, setTable]
  · intro db c id fs h
    have hgf : getField (setField (.obj fs) "_id" (.str id)) "_id" = .str id :=
      getField_setField_self fs "_id" (.str id)
    simp [update, runWriteWithProvision, createOnMissingTable, createTableIfNotExistsDb,
      q_upsert, h, hgf, isMissingTableError, missingTableErr, lookupTable, setTable]

/-- Claim C4, witness: the protocol facts and the end-to-end provisioning
paths at concrete inputs. -/
theorem C4_provisioning_witness :
    createOnMissingTableProto { code := "42P01" } (.error { code := "23505" })
      ((.ok 7 : Except PgError Nat)) = .ok 7
    ∧ createOnMissingTableProto { code := "42P01" } (.error { code := "57014" })
      ((.ok 7 : Except PgError Nat)) = .error { code := "57014" }
    ∧ createOnMissingTableProto { code := "42P01" } (.ok ())
      ((.ok 7 : Except PgError Nat)) = .ok 7
    ∧ createOnMissingTableProto { code := "42P01" } (.ok ())
      ((.error missingTableErr : Except PgError Nat)) = .error missingTableErr
    ∧ createTableIfNotExistsDb [("c", [])] "c" = [("c", [])]
    ∧ create [] "c" (.obj [("a", .num 1)]) "u1" =
      .ok ([("c",
          [(⟨"u1", stringifyParse (assignIdIfFalsy (.obj [("a", .num 1)]) "u1")⟩ : Row)])],
        assignIdIfFalsy (.obj [("a", .num 1)]) "u1")
    ∧ update [] "c" "x1" (.obj [("a", .num 1)]) true =
      .ok ([("c",
          [(⟨"x1", stringifyParse (setField (.obj [("a", .num 1)]) "_id" (.str "x1"))⟩ : Row)])],
        setField (.obj [("a", .num 1)]) "_id" (.str "x1")) :=
  ⟨C4_provisioning_theorem.1 { code := "42P01" } { code := "23505" } (.ok 7) rfl rfl,
    C4_provisioning_theorem.2.1 { code := "42P01" } { code := "57014" } (.ok 7) rfl
      (by decide),
    C4_provisioning_theorem.2.2.1 { code := "42P01" } (.ok 7) rfl,
    C4_provisioning_theorem.2.2.2.1 { code := "42P01" } rfl,
    C4_provisioning_theorem.2.2.2.2.1 [("c", [])] "c" [] rfl,
    C4_provisioning_theorem.2.2.2.2.2.1 [] "c" [("a", .num 1)] "u1" rfl rfl,
    C4_provisioning_theorem.2.2.2.2.2.2 [] "c" "x1" [("a", .num 1)] rfl⟩

end PostgresTools

namespace PostgresTools

theorem create_ok_doc (db : DB) (c f : String) (record : JSVal) (db2 : DB) (doc : JSVal)
    (h : create db c record f = .ok (db2, doc)) : doc = assignIdIfFalsy record f := by
  simp only [create] at h
  cases hq : runWriteWithProvision db c
      (fun d => q_insert d c (stringifyParse (assignIdIfFalsy record f))
        (getField (assignIdIfFalsy record f) "_id")) with
  | error e => rw [hq] at h; simp at h
  | ok v =>
    obtain ⟨q, dbx⟩ := v
    rw [hq] at h
    simp at h
    exact h.2.symm

theorem update_ok_doc (db : DB) (c id : String) (record : JSVal) (u : Bool) (db2 : DB)
    (doc : JSVal) (h : update db c id record u = .ok (db2, doc)) :
    doc = setField record "_id" (.str id) := by
  cases u with
  | true =>
    simp only [update, if_true] at h
    cases hq : runWriteWithProvision db c
        (fun d => q_upsert d c (stringifyParse (setField record "_id" (.str id)))
          (getField (setField record "_id" (.str id)) "_id")) with
    | error e => rw [hq] at h; simp at h
    | ok v =>
      obtain ⟨q, dbx⟩ := v
      rw [hq] at h
      simp at h
      exact h.2.symm
  | false =>
    simp only [update, if_false] at h
    cases hq : catchWriteEmpty db
        (q_update db c (stringifyParse (setField record "_id" (.str id)))
          (getField (setField record "_id" (.str id)) "_id")) with
    | error e => rw [hq] at h; simp at h
    | ok v =>
      obtain ⟨q, dbx⟩ := v
      rw [hq] at h
      by_cases hz : (q.rowCount == 0) = true
      · simp [hz] at h
      · simp [hz] at h
        exact h.2.symm

end PostgresTools

namespace PostgresTools

/-- Claim C10: every successful create and every successful update (either
upsert mode) returns the caller-supplied document with at most its identifier
field changed; every field other than the identifier field reads the same on
the returned document as on the supplied one. -/
theorem C10_frame_theorem (db : DB) (c id f : String) (record : JSVal) (u : Bool)
    (db2 : DB) (doc : JSVal) :
    (create db c record f = .ok (db2, doc) →
      ∀ k : String, ¬ k = "_id" → getField doc k = getField record k)
    ∧ (update db c id record u = .ok (db2, doc) →
      ∀ k : String, ¬ k = "_id" → getField doc k = getField record k) := by
  constructor
  · intro h k hk
    rw [create_ok_doc db c f record db2 doc h]
    unfold assignIdIfFalsy
    by_cases ht : truthy (getField record "_id") = true
    · simp [ht]
    · simp only [ht, if_false, Bool.false_eq_true]
      exact getField_setField_ne record "_id" k (.str f) hk
  · intro h k hk
    rw [update_ok_doc db c id record u db2 doc h]
    exact getField_setField_ne record "_id" k (.str id) hk

/-- Claim C10, witness: a create on a fresh collection leaves the field a of
the document untouched. -/
theorem C10_frame_witness :
    getField (JSVal.obj [("a", .num 1), ("_id", .str "u1")]) "a"
      = getField (JSVal.obj [("a", .num 1)]) "a" :=
  (C10_frame_theorem [] "c" "z" "u1" (.obj [("a", .num 1)]) false
      [("c", [⟨"u1", JSVal.obj [("a", .num 1), ("_id", .str "u1")]⟩])]
      (JSVal.obj [("a", .num 1), ("_id", .str "u1")])).1 rfl "a" (by decide)

/-- Claim C5: get, and update with upsert false, raise the not-found error
whose message names the identifier and the collection exactly when the query
returns or affects zero rows; a missing backing table is collapsed to the
zero-row case by the catch handler, so a record absent from an existing table
and a never-created table yield the very same observable error. -/
theorem C5_notFound_theorem (db : DB) (c id : String) (fs : List (String × JSVal)) :
    (get db c id =
        .error (.notFound ("The record " ++ id ++ " in " ++ c ++ " does not exist."))
      ↔ hasRow db c id = false)
    ∧ (update db c id (.obj fs) false =
        .error (.notFound ("The record " ++ id ++ " in " ++ c ++ " does not exist."))
      ↔ hasRow db c id = false) := by
  have hgf : getField (setField (.obj fs) "_id" (.str id)) "_id" = .str id :=
    getField_setField_self fs "_id" (.str id)
  cases hdb : lookupTable db c with
  | none =>
    constructor
    · simp [get, q_selectById, hdb, catchQuery, emptyOnMissingTable, isMissingTableError,
        missingTableErr, hasRow]
    · simp [update, catchWriteEmpty, q_update, hdb, hgf, emptyOnMissingTable,
        isMissingTableError, missingTableErr, hasRow]
  | some t =>
    constructor
    · cases hrs : t.filter (fun r => r._id == id) with
      | nil =>
        have hany : t.any (fun r => r._id == id) = false := by
          rw [List.any_eq_false]
          intro r hr
          exact List.filter_eq_nil_iff.mp hrs r hr
        simp [get, q_selectById, hdb, catchQuery, hrs, hasRow, hany]
      | cons r0 rs0 =>
        have hrmem : r0 ∈ t.filter (fun r => r._id == id) := by
          rw [hrs]; exact .head _
        have hany : t.any (fun r => r._id == id) = true := by
          rw [List.any_eq_true]
          exact ⟨r0, (List.mem_filter.mp hrmem).1, (List.mem_filter.mp hrmem).2⟩
        simp [get, q_selectById, hdb, catchQuery, hrs, hasRow, hany]
    · by_cases hc : t.countP (fun r => r._id == id) = 0
      · have hany : t.any (fun r => r._id == id) = false := by
          rw [List.any_eq_false]
          intro r hr
          exact List.countP_eq_zero.mp hc r hr
        simp [update, catchWriteEmpty, q_update, hdb, hgf, hc, hasRow, hany]
      · have hany : t.any (fun r => r._id == id) = true := by
          rw [List.any_eq_true]
          obtain ⟨r, hr, hp⟩ := List.countP_pos_iff.mp (Nat.pos_of_ne_zero hc)
          exact ⟨r, hr, hp⟩
        simp [update, catchWriteEmpty, q_update, hdb, hgf, hc, hasRow, hany]

/-- Claim C5, witness: on an empty database both get and non-upsert update
raise the not-found error with the message naming identifier and
collection. -/
theorem C5_notFound_witness :
    get ([] : DB) "c" "x" =
      .error (.notFound ("The record " ++ "x" ++ " in " ++ "c" ++ " does not exist."))
    ∧ update ([] : DB) "c" "x" (.obj []) false =
      .error (.notFound ("The record " ++ "x" ++ " in " ++ "c" ++ " does not exist.")) :=
  ⟨(C5_notFound_theorem [] "c" "x" []).1.mpr rfl,
    (C5_notFound_theorem [] "c" "x" []).2.mpr rfl⟩

/-- Claim C8: a create whose document carries an identifier already present
in the collection fails with the validation error naming the identifier and
the collection in place of the raw uniqueness-violation engine error; the
record already stored at that identifier remains retrievable (the collection
keeps its single record at that identifier, the failed insert changing
nothing); and the catch block of create rethrows unchanged every failure
whose code is not the uniqueness-violation code. -/
theorem C8_duplicate_create_theorem (db : DB) (c id f : String) (t : Table) (record : JSVal)
    (ht : lookupTable db c = some t)
    (hid : getField record "_id" = .str id)
    (hne : ¬ id = "")
    (hdup : t.any (fun r => r._id == id) = true) :
    create db c record f =
      .error (.validation ("The record " ++ id ++ " in " ++ c ++ " already exists."))
    ∧ (∃ d, get db c id = .ok d)
    ∧ (∀ e : PgError, isAlreadyExistsError e = false → createCatch c (.str id) e = .pg e) := by
  have htr : truthy (getField record "_id") = true := by
    rw [hid]
    simp [truthy, beq_eq_false_iff_ne.mpr hne]
  have hrec : assignIdIfFalsy record f = record := by simp [assignIdIfFalsy, htr]
  refine ⟨?_, ?_, ?_⟩
  · simp [create, hrec, hid, runWriteWithProvision, q_insert, ht, hdup,
      createOnMissingTable, isMissingTableError, uniqueViolationErr, createCatch,
      isAlreadyExistsError, jsToString]
  · obtain ⟨r, hrmem, hrid⟩ := List.any_eq_true.mp hdup
    cases hrs : t.filter (fun r => r._id == id) with
    | nil => exact absurd hrid (List.filter_eq_nil_iff.mp hrs r hrmem)
    | cons r0 rs0 =>
      exact ⟨r0.json, by simp [get, q_selectById, ht, catchQuery, hrs]⟩
  · intro e he
    simp [createCatch, he]

/-- Claim C8, witness: creating a second record with identifier x1 in a
collection already holding x1 raises the validation error, the stored record
stays readable, and a foreign error code passes through the catch block. -/
theorem C8_duplicate_create_witness :
    create [("c", [⟨"x1", JSVal.null⟩])] "c" (.obj [("_id", .str "x1")]) "f1" =
      .error (.validation ("The record " ++ "x1" ++ " in " ++ "c" ++ " already exists."))
    ∧ (∃ d, get [("c", [⟨"x1", JSVal.null⟩])] "c" "x1" = .ok d)
    ∧ (∀ e : PgError, isAlreadyExistsError e = false →
        createCatch "c" (.str "x1") e = .pg e) :=
  C8_duplicate_create_theorem [("c", [⟨"x1", JSVal.null⟩])] "c" "x1" "f1"
    [⟨"x1", JSVal.null⟩] (.obj [("_id", .str "x1")]) rfl rfl (by decide) rfl

end PostgresTools

namespace PostgresTools

/-- Claim C7: create on a document lacking an identifier writes the freshly
generated identifier into the document before persistence and returns the
document with it populated, and an immediate get on that collection and
identifier returns a document equal to the created one.  The document is a
JSON document (the stringify then parse normalization is the identity on it,
hypothesis hsp) and the generated identifier is universally unique, hence
absent from the existing table (hypothesis hfresh). -/
theorem C7_roundtrip_theorem (db : DB) (c f : String) (fs : List (String × JSVal))
    (hmiss : getField (.obj fs) "_id" = .undefined)
    (hsp : stringifyParse (assignIdIfFalsy (.obj fs) f) = assignIdIfFalsy (.obj fs) f)
    (hfresh : ∀ t, lookupTable db c = some t → ∀ r ∈ t, ¬ r._id = f) :
    ∃ db2, create db c (.obj fs) f = .ok (db2, assignIdIfFalsy (.obj fs) f)
      ∧ getField (assignIdIfFalsy (.obj fs) f) "_id" = .str f
      ∧ get db2 c f = .ok (assignIdIfFalsy (.obj fs) f) := by
  have hgf : getField (assignIdIfFalsy (.obj fs) f) "_id" = .str f := by
    simp only [assignIdIfFalsy, hmiss, truthy, if_false, Bool.false_eq_true]
    exact getField_setField_self fs "_id" (.str f)
  cases hdb : lookupTable db c with
  | none =>
    refine ⟨(c, [⟨f, stringifyParse (assignIdIfFalsy (.obj fs) f)⟩]) :: db, ?_, hgf, ?_⟩
    · simp [create, runWriteWithProvision, createOnMissingTable, createTableIfNotExistsDb,
        q_insert, hdb, hgf, isMissingTableError, missingTableErr, lookupTable, setTable]
    · rw [hsp]
      simp [get, q_selectById, lookupTable, catchQuery]
  | some t =>
    have hany : t.any (fun r => r._id == f) = false := by
      rw [List.any_eq_false]
      intro r hr
      simpa using hfresh t hdb r hr
    have hnil : t.filter (fun r => r._id == f) = [] :=
      List.filter_eq_nil_iff.mpr (fun r hr => by simpa using hfresh t hdb r hr)
    refine ⟨setTable db c (t ++ [⟨f, stringifyParse (assignIdIfFalsy (.obj fs) f)⟩]),
      ?_, hgf, ?_⟩
    · simp [create, runWriteWithProvision, q_insert, hdb, hgf, hany]
    · have hl : lookupTable
          (setTable db c (t ++ [⟨f, stringifyParse (assignIdIfFalsy (.obj fs) f)⟩])) c
          = some (t ++ [⟨f, stringifyParse (assignIdIfFalsy (.obj fs) f)⟩]) :=
        lookupTable_setTable_self db c _
      rw [hsp] at hl ⊢
      simp [get, q_selectById, hl, catchQuery, List.filter_append, hnil]

/-- Claim C7, witness: a concrete round trip through a fresh collection. -/
theorem C7_roundtrip_witness :
    ∃ db2, create [] "c" (.obj [("a", .num 1)]) "u1" =
        .ok (db2, assignIdIfFalsy (.obj [("a", .num 1)]) "u1")
      ∧ getField (assignIdIfFalsy (.obj [("a", .num 1)]) "u1") "_id" = .str "u1"
      ∧ get db2 "c" "u1" = .ok (assignIdIfFalsy (.obj [("a", .num 1)]) "u1") :=
  C7_roundtrip_theorem [] "c" "u1" [("a", .num 1)] rfl rfl
    (by intro t h; simp [lookupTable] at h)

end PostgresTools

namespace PostgresTools

theorem countP_eq_one_of_unique {α : Type} (p q : α → Bool) (a : α) :
    ∀ l : List α, a ∈ l → l.countP q = 1 → q a = true → p a = true →
      (∀ x ∈ l, ¬ x = a → p x = false) → l.countP p = 1 := by
  intro l
  induction l with
  | nil => intro h; cases h
  | cons b l ih =>
    intro hmem hcq hqa hpa hother
    by_cases hba : b = a
    · subst hba
      simp only [List.countP_cons, hqa, if_true] at hcq
      have hq0 : l.countP q = 0 := by omega
      have hp0 : l.countP p = 0 := by
        rw [List.countP_eq_zero]
        intro x hx
        by_cases hxb : x = b
        · subst hxb
          exact absurd hqa (List.countP_eq_zero.mp hq0 x hx)
        · simp [hother x (List.mem_cons_of_mem b hx) hxb]
      simp [List.countP_cons, hpa, hp0]
    · have hpb : p b = false := hother b (List.mem_cons_self b l) (fun h => hba h)
      have hmem2 : a ∈ l := by
        cases List.mem_cons.mp hmem with
        | inl h => exact absurd h.symm hba
        | inr h => exact h
      rw [List.countP_cons] at hcq
      by_cases hqb : q b = true
      · rw [if_pos hqb] at hcq
        have hq0 : l.countP q = 0 := by omega
        exact absurd hqa (List.countP_eq_zero.mp hq0 a hmem2)
      · rw [if_neg hqb] at hcq
        have hres := ih hmem2 (by omega) hqa hpa
          (fun x hx hxa => hother x (List.mem_cons_of_mem b hx) hxa)
        simp [List.countP_cons, hpb, hres]

theorem flattenStrLists_mem (v : JSVal) (l : List String)
    (hl : asStrList v = some l) (x : String) (hx : x ∈ l) :
    ∀ (vs : List JSVal) (ids : List String),
      flattenStrLists vs = some ids → v ∈ vs → x ∈ ids := by
  intro vs
  induction vs with
  | nil => intro ids _ hv; cases hv
  | cons w ws ih =>
    intro ids h hv
    cases hw : asStrList w with
    | none => simp [flattenStrLists, hw] at h
    | some lw =>
      cases hws : flattenStrLists ws with
      | none => simp [flattenStrLists, hw, hws] at h
      | some ls =>
        simp only [flattenStrLists, hw, hws] at h
        injection h with h
        subst h
        cases List.mem_cons.mp hv with
        | inl hvw =>
          subst hvw
          rw [hw] at hl
          injection hl with hl
          subst hl
          exact List.mem_append_left ls hx
        | inr hvm => exact List.mem_append_right lw (ih ls hws hvm)

theorem count_map_eq_countP {α β : Type} [BEq β] (f : α → β) (b : β) (l : List α) :
    (l.map f).count b = l.countP (fun a => f a == b) := by
  rw [List.count_eq_countP, List.countP_map]
  rfl

end PostgresTools

namespace PostgresTools

/-- Claim C2 (amended): for a user belonging to two groups whose documents
both reference the same role identifier, getUserData returns that role name
exactly once, not twice — the roles query selects each matching role table
row a single time no matter how many groups reference it — while the
permissions sequence does contain the names of all permissions listed in that
role permissions array.  The hypotheses state the scenario: the three auth
tables exist, the flattening of the embedded id arrays succeeds, two distinct
matching group rows both list the role identifier, the roles table holds
exactly one row with that identifier (the uniqueness invariant of the
identifier column), and no other role row selected for the user carries the
same name. -/
theorem C2_getUserData_theorem (db : DB) (u : String) (gt rt pt : Table)
    (rolesIds permIds : List String) (g1 g2 rrow : Row) (l1 l2 ps : List String)
    (rid n : String)
    (hg : lookupTable db "groups" = some gt)
    (hr : lookupTable db "roles" = some rt)
    (hp : lookupTable db "permissions" = some pt)
    (hflat1 : flattenStrLists ((gt.filter (groupMatches u)).map
        (fun r => getField r.json "roles")) = some rolesIds)
    (hflat2 : flattenStrLists ((rt.filter (roleMatches u rolesIds)).map
        (fun r => getField r.json "permissions")) = some permIds)
    (hg1 : g1 ∈ gt) (hg1m : groupMatches u g1 = true)
    (hl1 : asStrList (getField g1.json "roles") = some l1) (hrid1 : rid ∈ l1)
    (hg2 : g2 ∈ gt) (hg2m : groupMatches u g2 = true)
    (hl2 : asStrList (getField g2.json "roles") = some l2) (hrid2 : rid ∈ l2)
    (hgne : ¬ g1 = g2)
    (hrrow : rrow ∈ rt) (hrrid : rrow._id = rid)
    (huniq : rt.countP (fun r => r._id == rid) = 1)
    (hname : getField rrow.json "name" = .str n)
    (hperm : asStrList (getField rrow.json "permissions") = some ps)
    (hother : ∀ r ∈ rt, ¬ r = rrow → roleMatches u rolesIds r = true →
        ¬ textOf (getField r.json "name") = some n) :
    ∃ res, getUserData db u = .ok res
      ∧ res.roles.count (some n) = 1
      ∧ (∀ p0 ∈ ps, ∀ prow ∈ pt, prow._id = p0 →
          textOf (getField prow.json "name") ∈ res.permissions) := by
  have hridIn : rid ∈ rolesIds :=
    flattenStrLists_mem (getField g1.json "roles") l1 hl1 rid hrid1 _ rolesIds hflat1
      (List.mem_map_of_mem _ (List.mem_filter.mpr ⟨hg1, hg1m⟩))
  have hcontains : rrow._id ∈ rolesIds := by
    rw [hrrid]
    exact hridIn
  have hrm : roleMatches u rolesIds rrow = true := by
    simp [roleMatches, hcontains]
  refine ⟨UserData.mk
      ((gt.filter (groupMatches u)).map (fun r =>
        (textOf (getField r.json "_id"), textOf (getField r.json "name"))))
      ((rt.filter (roleMatches u rolesIds)).map (fun r => textOf (getField r.json "name")))
      ((pt.filter (fun r => permIds.contains r._id)).map
        (fun r => textOf (getField r.json "name"))), ?_, ?_, ?_⟩
  · simp [getUserData, hg, hflat1, hr, hflat2, hp]
  · rw [count_map_eq_countP, List.countP_filter]
    refine countP_eq_one_of_unique
      (fun r => (textOf (getField r.json "name") == some n) && roleMatches u rolesIds r)
      (fun r => r._id == rid) rrow rt hrrow huniq (by simp [hrrid]) ?_ ?_
    · simp [hname, textOf, hrm]
    · intro x hx hxa
      cases hmx : roleMatches u rolesIds x with
      | false => simp [hmx]
      | true =>
        simp [hmx, beq_eq_false_iff_ne.mpr (hother x hx hxa hmx)]
  · intro p0 hp0 prow hprow hpid
    have hpin : p0 ∈ permIds :=
      flattenStrLists_mem (getField rrow.json "permissions") ps hperm p0 hp0 _ permIds hflat2
        (List.mem_map_of_mem _ (List.mem_filter.mpr ⟨hrrow, hrm⟩))
    have hmem2 : prow ∈ pt.filter (fun r => permIds.contains r._id) := by
      refine List.mem_filter.mpr ⟨hprow, ?_⟩
      rw [hpid]
      exact List.elem_iff.mpr hpin
    exact List.mem_map_of_mem _ hmem2

end PostgresTools

namespace PostgresTools

/-- Group g1 of the two-group scenario: user u is a member and the document
references role r1. -/
def exGroupRow1 : Row :=
  ⟨"g1", .obj [("_id", .str "g1"), ("name", .str "G1"),
    ("members", .arr [.str "u"]), ("roles", .arr [.str "r1"])]⟩

/-- Group g2 of the two-group scenario: user u is a member and the document
references the same role r1. -/
def exGroupRow2 : Row :=
  ⟨"g2", .obj [("_id", .str "g2"), ("name", .str "G2"),
    ("members", .arr [.str "u"]), ("roles", .arr [.str "r1"])]⟩

/-- The single role row r1, named admin, listing permission p1. -/
def exRoleRow : Row :=
  ⟨"r1", .obj [("_id", .str "r1"), ("name", .str "admin"),
    ("users", .arr []), ("permissions", .arr [.str "p1"])]⟩

/-- The single permission row p1, named read. -/
def exPermRow : Row := ⟨"p1", .obj [("_id", .str "p1"), ("name", .str "read")]⟩

/-- A database in which user u belongs to two groups that both reference role
r1. -/
def exAuthDB : DB :=
  [("groups", [exGroupRow1, exGroupRow2]), ("roles", [exRoleRow]),
    ("permissions", [exPermRow])]

/-- Claim C2, witness: the amended theorem applied to the concrete two-group
database. -/
theorem C2_getUserData_witness :
    ∃ res, getUserData exAuthDB "u" = .ok res
      ∧ res.roles.count (some "admin") = 1
      ∧ (∀ p0 ∈ ["p1"], ∀ prow ∈ [exPermRow], prow._id = p0 →
          textOf (getField prow.json "name") ∈ res.permissions) :=
  C2_getUserData_theorem exAuthDB "u" [exGroupRow1, exGroupRow2] [exRoleRow] [exPermRow]
    ["r1", "r1"] ["p1"] exGroupRow1 exGroupRow2 exRoleRow ["r1"] ["r1"] ["p1"] "r1" "admin"
    rfl rfl rfl rfl rfl
    (List.mem_cons_self _ _) rfl rfl (by decide)
    (List.mem_cons_of_mem _ (List.mem_cons_self _ _)) rfl rfl (by decide)
    (fun h => absurd (congrArg Row._id h) (by decide))
    (List.mem_cons_self _ _) rfl rfl rfl rfl
    (by
      intro r hr hne
      exact absurd (List.mem_singleton.mp hr) hne)

/-- Claim C2, counterexample: in the concrete two-group database user u
belongs to the two groups g1 and g2 and both group documents reference role
r1 (named admin), yet getUserData returns the name admin exactly once in the
roles sequence, not twice as the claim states. -/
theorem C2_getUserData_cex :
    groupMatches "u" exGroupRow1 = true
    ∧ groupMatches "u" exGroupRow2 = true
    ∧ getField exGroupRow1.json "roles" = .arr [.str "r1"]
    ∧ getField exGroupRow2.json "roles" = .arr [.str "r1"]
    ∧ exRoleRow._id = "r1"
    ∧ getField exRoleRow.json "name" = .str "admin"
    ∧ getUserData exAuthDB "u" =
      .ok ⟨[(some "g1", some "G1"), (some "g2", some "G2")], [some "admin"], [some "read"]⟩
    ∧ (getUserData exAuthDB "u").map (fun r => r.roles.count (some "admin")) = .ok 1 :=
  ⟨rfl, rfl, rfl, rfl, rfl, rfl, rfl, rfl⟩

end PostgresTools
